import Mathlib

/-!
Verification of the quiz-platform data-access layer (FastAPI + psycopg2
repository functions) against its natural-language specification.

The database state is embedded as lists of rows per table; a connection
carries the last committed state, the working (in-transaction) state, and a
trace of transaction-control / statement events.  Repository functions from
db.py are translated one-to-one; route handlers from app.py are translated
as functions from a connection to a connection and an Except result; the
request-scoped dependency get_db_conn is translated as a wrapper that runs a
handler and then commits or rolls back and closes, exactly as the Python
generator does.
-/

/-- Events observable on a connection: statement execution (cursor.execute),
commit, rollback, close. -/
inductive Ev
  | exec
  | commit
  | rollback
  | close
deriving DecidableEq, Repr

/-- Row of the users table.  Column set from the SELECT/RETURNING
projections in db.py plus password_hash (inserted but never projected). -/
structure UserRow where
  user_id : Nat
  username : String
  email : String
  password_hash : String
  language : String
  is_verified : Bool
  is_active : Bool
  created_at : Nat
  current_subscription_id : Option Nat
deriving DecidableEq, Repr

/-- The eight-column projection returned by every users query in db.py
(user_id, username, email, language, is_verified, is_active, created_at,
current_subscription_id); password_hash is never returned. -/
structure UserProj where
  user_id : Nat
  username : String
  email : String
  language : String
  is_verified : Bool
  is_active : Bool
  created_at : Nat
  current_subscription_id : Option Nat
deriving DecidableEq, Repr

/-- Projection of a stored user row to the returned column set. -/
def userProj (r : UserRow) : UserProj :=
  { user_id := r.user_id, username := r.username, email := r.email,
    language := r.language, is_verified := r.is_verified,
    is_active := r.is_active, created_at := r.created_at,
    current_subscription_id := r.current_subscription_id }

/-- Row of the game_session table, as projected by every sessions query in
db.py (the RETURNING clause lists all seven columns, so the projection is
the whole row). -/
structure SessionRow where
  session_id : Nat
  quiz_id : Option Nat
  host_id : Option Nat
  access_code : String
  started_at : Nat
  ended_at : Option Nat
  current_question_index : Option Int
deriving DecidableEq, Repr

/-- Row of the quiz_question table. -/
structure QuestionRow where
  question_id : Nat
  quiz_id : Nat
  question_text : String
  question_type : String
  time_limit : Int
  points : Int
  sort_order : Option Int
  media_id : Option Nat
deriving DecidableEq, Repr

/-- Row of the quiz_answer table. -/
structure AnswerRow where
  answer_id : Nat
  question_id : Nat
  answer_text : String
  is_correct : Bool
  sort_order : Option Int
  media_id : Option Nat
deriving DecidableEq, Repr

/-- Row of the participant_answer table. -/
structure PaRow where
  id : Nat
  participant_id : Nat
  question_id : Nat
  chosen_answer_id : Option Nat
  is_correct : Option Bool
  points_awarded : Option Int
  answered_at : Nat
deriving DecidableEq, Repr

/-- Database state: the tables touched by the verified operations, the
next auto-increment keys, and a clock supplying NOW() timestamps. -/
structure DB where
  users : List UserRow
  nextUserId : Nat
  sessions : List SessionRow
  questions : List QuestionRow
  answers : List AnswerRow
  pa : List PaRow
  nextPaId : Nat
  clock : Nat
deriving DecidableEq, Repr

/-- A psycopg2 connection: committed state, working (in-transaction) state,
the trace of events performed on it, and whether it has been closed. -/
structure Conn where
  committed : DB
  working : DB
  events : List Ev
  closed : Bool
deriving DecidableEq, Repr

/-- Fresh connection from db_setup.get_connection: transaction starts from
the durable state. -/
def connOpen (db : DB) : Conn :=
  { committed := db, working := db, events := [], closed := false }

/-- Record one executed statement whose effect is the new working state. -/
def Conn.execTo (c : Conn) (w : DB) : Conn :=
  { c with working := w, events := c.events ++ [Ev.exec] }

/-- connection.commit(): the working state becomes durable. -/
def Conn.commitTx (c : Conn) : Conn :=
  { c with committed := c.working, events := c.events ++ [Ev.commit] }

/-- connection.rollback(): the working state is reset to the committed one. -/
def Conn.rollbackTx (c : Conn) : Conn :=
  { c with working := c.committed, events := c.events ++ [Ev.rollback] }

/-- connection.close(). -/
def Conn.closeConn (c : Conn) : Conn :=
  { c with closed := true, events := c.events ++ [Ev.close] }

/-- Errors that can flow out of a handler body: an HTTPException raised by
the handler, a uniqueness-constraint error raised by the storage driver, or
a Python ValueError raised by a patch builder. -/
inductive AppErr
  | http (status : Nat) (detail : String)
  | unique
  | valueErr (msg : String)
deriving DecidableEq, Repr

/-- True when the result is an HTTPException (as opposed to a raw storage or
ValueError exception reaching the boundary). -/
def isHttpErr {α : Type} : Except AppErr α → Bool
  | Except.error (AppErr.http _ _) => true
  | _ => false

/-- A route handler body: consumes the request-scoped connection, returns
the possibly mutated connection and a result or a raised exception. -/
def Handler (α : Type) : Type := Conn → Conn × Except AppErr α

/-- The get_db_conn dependency from app.py: open a connection, run the
handler body at the yield point; on normal completion commit, on any
exception roll back and re-raise; in both cases close last. -/
def get_db_conn {α : Type} (handler : Handler α) (db : DB) :
    Conn × Except AppErr α :=
  match handler (connOpen db) with
  | (c, Except.ok a) => (Conn.closeConn (Conn.commitTx c), Except.ok a)
  | (c, Except.error e) => (Conn.closeConn (Conn.rollbackTx c), Except.error e)

/-- db.users_create: INSERT INTO users (username, email, password_hash,
language) VALUES (...) RETURNING the eight-column projection, then
connection.commit(), then fetchone().

Modelled from the spec: the users table DDL (sqlwinserts.sql) is not in the
repository; per the spec's data model, username and email are unique (a
duplicate insert raises a storage-driver error), is_verified defaults to
false, is_active defaults to true per schema, created_at is server-assigned
and user_id is an auto-incrementing surrogate key. -/
def users_create (c : Conn) (username email password_hash language : String) :
    Conn × Except AppErr (Option UserProj) :=
  if c.working.users.any (fun r => r.username == username || r.email == email) then
    ({ c with events := c.events ++ [Ev.exec] }, Except.error AppErr.unique)
  else
    let row : UserRow :=
      { user_id := c.working.nextUserId, username := username, email := email,
        password_hash := password_hash, language := language,
        is_verified := false, is_active := true,
        created_at := c.working.clock, current_subscription_id := none }
    let w :=
      { c.working with
        users := c.working.users ++ [row],
        nextUserId := c.working.nextUserId + 1 }
    (Conn.commitTx (Conn.execTo c w), Except.ok (some (userProj row)))

/-- The dynamic assignment list built by db.users_patch: one column
assignment per supplied (non-None) field, in source order is_active,
is_verified, language. -/
def patchAssignments (is_active is_verified : Option Bool)
    (language : Option String) : List (UserRow → UserRow) :=
  (match is_active with
   | some a => [fun r => { r with is_active := a }]
   | none => []) ++
  (match is_verified with
   | some v => [fun r => { r with is_verified := v }]
   | none => []) ++
  (match language with
   | some l => [fun r => { r with language := l }]
   | none => [])

/-- db.users_patch: build the assignment list from the supplied fields;
raise ValueError("No fields provided") before any statement when it is
empty; otherwise execute one UPDATE ... WHERE user_id=%s RETURNING the
eight-column projection and fetchone() the updated row (none when no row
matched). -/
def users_patch (c : Conn) (user_id : Nat) (is_active is_verified : Option Bool)
    (language : Option String) : Conn × Except AppErr (Option UserProj) :=
  let fields := patchAssignments is_active is_verified language
  if fields.isEmpty then
    (c, Except.error (AppErr.valueErr "No fields provided"))
  else
    let applyF := fun (r : UserRow) => fields.foldl (fun s f => f s) r
    let w :=
      { c.working with
        users := c.working.users.map
          (fun r => if r.user_id == user_id then applyF r else r) }
    let ret := (c.working.users.find? (fun r => r.user_id == user_id)).map
      (fun r => userProj (applyF r))
    (Conn.execTo c w, Except.ok ret)

/-- db.users_delete: DELETE FROM users WHERE user_id=%s, returning
cur.rowcount (number of rows removed). -/
def users_delete (c : Conn) (user_id : Nat) : Conn × Nat :=
  let n := (c.working.users.filter (fun r => r.user_id == user_id)).length
  let w :=
    { c.working with
      users := c.working.users.filter (fun r => !(r.user_id == user_id)) }
  (Conn.execTo c w, n)

/-- Validated body of POST /users/ (schemas.UserCreate). -/
structure UserCreate where
  username : String
  email : String
  password_hash : String
  language : String
deriving DecidableEq, Repr

/-- Validated body of PATCH /users/{user_id} (schemas.UserPatch): all three
fields optional, defaulting to None. -/
structure UserPatch where
  is_active : Option Bool
  is_verified : Option Bool
  language : Option String
deriving DecidableEq, Repr

/-- app.create_user: call users_create; a falsy row becomes
HTTPException 400, otherwise return the new user. -/
def create_user (u : UserCreate) : Handler UserProj := fun c =>
  match users_create c u.username u.email u.password_hash u.language with
  | (c1, Except.error e) => (c1, Except.error e)
  | (c1, Except.ok none) =>
      (c1, Except.error (AppErr.http 400
        "Could not create user. Username or email might already exist."))
  | (c1, Except.ok (some r)) => (c1, Except.ok r)

/-- app.patch_user: call users_patch; a falsy row becomes
HTTPException 404, otherwise return the updated user. -/
def patch_user (user_id : Nat) (p : UserPatch) : Handler UserProj := fun c =>
  match users_patch c user_id p.is_active p.is_verified p.language with
  | (c1, Except.error e) => (c1, Except.error e)
  | (c1, Except.ok none) =>
      (c1, Except.error (AppErr.http 404 "User not found"))
  | (c1, Except.ok (some r)) => (c1, Except.ok r)

/-- app.delete_user: call users_delete; a zero rowcount becomes
HTTPException 404, otherwise a success message. -/
def delete_user (user_id : Nat) : Handler String := fun c =>
  match users_delete c user_id with
  | (c1, n) =>
      if n == 0 then (c1, Except.error (AppErr.http 404 "User not found"))
      else (c1, Except.ok "User deleted")

/-- The dynamic assignment list built by db.sessions_patch: one column
assignment per supplied (non-None) field, in source order
current_question_index, ended_at. -/
def sessionAssignments (current_question_index : Option Int)
    (ended_at : Option Nat) : List (SessionRow → SessionRow) :=
  (match current_question_index with
   | some i => [fun r => { r with current_question_index := some i }]
   | none => []) ++
  (match ended_at with
   | some t => [fun r => { r with ended_at := some t }]
   | none => [])

/-- db.sessions_patch: build the assignment list from the supplied fields;
raise ValueError("No fields provided") before any statement when it is
empty; otherwise execute one UPDATE ... WHERE session_id=%s RETURNING all
seven columns and fetchone() the updated row (none when no row matched). -/
def sessions_patch (c : Conn) (session_id : Nat)
    (current_question_index : Option Int) (ended_at : Option Nat) :
    Conn × Except AppErr (Option SessionRow) :=
  let fields := sessionAssignments current_question_index ended_at
  if fields.isEmpty then
    (c, Except.error (AppErr.valueErr "No fields provided"))
  else
    let applyF := fun (r : SessionRow) => fields.foldl (fun s f => f s) r
    let w :=
      { c.working with
        sessions := c.working.sessions.map
          (fun r => if r.session_id == session_id then applyF r else r) }
    let ret := (c.working.sessions.find? (fun r => r.session_id == session_id)).map
      (fun r => applyF r)
    (Conn.execTo c w, Except.ok ret)

/-- The single-statement read-modify-write of db.sessions_next_question:
SET current_question_index = COALESCE(current_question_index, 0) + 1. -/
def bumpIndex (r : SessionRow) : SessionRow :=
  { r with current_question_index := some (r.current_question_index.getD 0 + 1) }

/-- db.sessions_next_question: one UPDATE game_session SET
current_question_index = COALESCE(current_question_index, 0) + 1 WHERE
session_id=%s RETURNING all seven columns, then fetchone() (none when no
row matched). -/
def sessions_next_question (c : Conn) (session_id : Nat) :
    Conn × Option SessionRow :=
  let w :=
    { c.working with
      sessions := c.working.sessions.map
        (fun r => if r.session_id == session_id then bumpIndex r else r) }
  let ret := (c.working.sessions.find? (fun r => r.session_id == session_id)).map
    bumpIndex
  (Conn.execTo c w, ret)

/-- SQL comparison "a sorts strictly before b" for an ORDER BY key ASC with
NULLS LAST. -/
def nullsLastLT (a b : Option Int) : Bool :=
  match a, b with
  | some x, some y => x < y
  | some _, none => true
  | none, _ => false

/-- Total comparison realising ORDER BY sort_order NULLS LAST, question_id
for quiz_question rows. -/
def qLE (r s : QuestionRow) : Bool :=
  nullsLastLT r.sort_order s.sort_order ||
    (r.sort_order == s.sort_order && r.question_id ≤ s.question_id)

/-- Total comparison realising ORDER BY sort_order NULLS LAST, answer_id
for quiz_answer rows. -/
def aLE (r s : AnswerRow) : Bool :=
  nullsLastLT r.sort_order s.sort_order ||
    (r.sort_order == s.sort_order && r.answer_id ≤ s.answer_id)

/-- db.questions_list_for_quiz: SELECT all eight columns FROM quiz_question
WHERE quiz_id=%s ORDER BY sort_order NULLS LAST, question_id; fetchall(). -/
def questions_list_for_quiz (c : Conn) (quiz_id : Nat) :
    Conn × List QuestionRow :=
  let rows := (c.working.questions.filter (fun r => r.quiz_id == quiz_id)).mergeSort qLE
  (Conn.execTo c c.working, rows)

/-- db.answers_list_for_question: SELECT all six columns FROM quiz_answer
WHERE question_id=%s ORDER BY sort_order NULLS LAST, answer_id;
fetchall(). -/
def answers_list_for_question (c : Conn) (question_id : Nat) :
    Conn × List AnswerRow :=
  let rows := (c.working.answers.filter (fun r => r.question_id == question_id)).mergeSort aLE
  (Conn.execTo c c.working, rows)

/-- db.participant_answers_create: INSERT INTO participant_answer with
NOW() as answered_at, RETURNING all seven columns, fetchone().  The three
answer fields are typed int | None, bool | None, int | None and are stored
as given (all three may be None). -/
def participant_answers_create (c : Conn) (participant_id question_id : Nat)
    (chosen_answer_id : Option Nat) (is_correct : Option Bool)
    (points_awarded : Option Int) : Conn × Option PaRow :=
  let row : PaRow :=
    { id := c.working.nextPaId, participant_id := participant_id,
      question_id := question_id, chosen_answer_id := chosen_answer_id,
      is_correct := is_correct, points_awarded := points_awarded,
      answered_at := c.working.clock }
  let w :=
    { c.working with
      pa := c.working.pa ++ [row],
      nextPaId := c.working.nextPaId + 1 }
  (Conn.execTo c w, some row)

/-- A raw JSON body for POST /sessions/submit-answer before validation:
each field either present with a value or null/absent. -/
structure RawParticipantAnswer where
  participant_id : Option Nat
  question_id : Option Nat
  chosen_answer_id : Option Nat
  is_correct : Option Bool
  points_awarded : Option Int
deriving DecidableEq, Repr

/-- schemas.ParticipantAnswer: the validated request model declares all
five fields as required, non-Optional (participant_id: int,
question_id: int, chosen_answer_id: int, is_correct: bool,
points_awarded: int). -/
structure ParticipantAnswer where
  participant_id : Nat
  question_id : Nat
  chosen_answer_id : Nat
  is_correct : Bool
  points_awarded : Int
deriving DecidableEq, Repr

/-- Pydantic validation of schemas.ParticipantAnswer: every declared field
is required and non-nullable, so a missing or null field rejects the
request with a validation error before the handler runs. -/
def validateParticipantAnswer (raw : RawParticipantAnswer) :
    Except AppErr ParticipantAnswer :=
  match raw.participant_id, raw.question_id, raw.chosen_answer_id,
        raw.is_correct, raw.points_awarded with
  | some p, some q, some ca, some ic, some pw =>
      Except.ok { participant_id := p, question_id := q,
                  chosen_answer_id := ca, is_correct := ic,
                  points_awarded := pw }
  | _, _, _, _, _ => Except.error (AppErr.http 422 "validation error")

/-- app.submit_answer: call participant_answers_create with the validated
fields; a falsy result becomes HTTPException 400. -/
def submit_answer (ans : ParticipantAnswer) : Handler PaRow := fun c =>
  match participant_answers_create c ans.participant_id ans.question_id
      (some ans.chosen_answer_id) (some ans.is_correct)
      (some ans.points_awarded) with
  | (c1, none) =>
      (c1, Except.error (AppErr.http 400 "Could not submit answer. Verify IDs."))
  | (c1, some r) => (c1, Except.ok r)

/-- An empty database used for concrete evaluations. -/
def dbEx : DB :=
  { users := [], nextUserId := 1, sessions := [], questions := [],
    answers := [], pa := [], nextPaId := 1, clock := 100 }

/-- A stored user row named ada. -/
def adaRow : UserRow :=
  { user_id := 1, username := "ada", email := "ada@x.com",
    password_hash := "h", language := "en", is_verified := false,
    is_active := true, created_at := 50, current_subscription_id := none }

/-- A database already holding the user ada. -/
def dbDup : DB := { dbEx with users := [adaRow], nextUserId := 2 }

/-- A handler body that succeeds without touching the connection. -/
def hOkEx : Handler Nat := fun c => (c, Except.ok 0)

/-- A handler body that raises. -/
def hErrEx : Handler Nat := fun c => (c, Except.error (AppErr.valueErr "boom"))

/-- C1: a request handled through get_db_conn gets, on normal completion of
the handler body, exactly one wrapper commit (making the handler's working
state durable) and no rollback; on any exception, a rollback (restoring the
last committed state) and the original exception re-raised unchanged; and on
both paths the connection is closed as the final step. -/
theorem get_db_conn_txn_discipline {α : Type} (h : Handler α) (db : DB) :
    (∀ a : α, (h (connOpen db)).2 = Except.ok a →
      (get_db_conn h db).2 = Except.ok a ∧
      (get_db_conn h db).1.committed = (h (connOpen db)).1.working ∧
      (get_db_conn h db).1.events =
        (h (connOpen db)).1.events ++ [Ev.commit, Ev.close] ∧
      (get_db_conn h db).1.events.count Ev.commit =
        (h (connOpen db)).1.events.count Ev.commit + 1 ∧
      (get_db_conn h db).1.events.count Ev.rollback =
        (h (connOpen db)).1.events.count Ev.rollback) ∧
    (∀ e : AppErr, (h (connOpen db)).2 = Except.error e →
      (get_db_conn h db).2 = Except.error e ∧
      (get_db_conn h db).1.committed = (h (connOpen db)).1.committed ∧
      (get_db_conn h db).1.working = (h (connOpen db)).1.committed ∧
      (get_db_conn h db).1.events =
        (h (connOpen db)).1.events ++ [Ev.rollback, Ev.close] ∧
      (get_db_conn h db).1.events.count Ev.rollback =
        (h (connOpen db)).1.events.count Ev.rollback + 1 ∧
      (get_db_conn h db).1.events.count Ev.commit =
        (h (connOpen db)).1.events.count Ev.commit) ∧
    (get_db_conn h db).1.closed = true ∧
    (get_db_conn h db).1.events.getLast? = some Ev.close := by
  rcases hh : h (connOpen db) with ⟨ch, rh⟩
  cases rh with
  | ok a0 =>
      refine ⟨?_, ?_, ?_, ?_⟩
      · intro a ha
        injection ha with ha
        subst ha
        refine ⟨?_, ?_, ?_, ?_, ?_⟩ <;>
          simp [get_db_conn, hh, Conn.commitTx, Conn.closeConn,
                List.count_append, List.append_assoc]
      · intro e he
        exact absurd he (by simp)
      · simp [get_db_conn, hh, Conn.commitTx, Conn.closeConn]
      · simp [get_db_conn, hh, Conn.commitTx, Conn.closeConn, List.append_assoc]
  | error e0 =>
      refine ⟨?_, ?_, ?_, ?_⟩
      · intro a ha
        exact absurd ha (by simp)
      · intro e he
        injection he with he
        subst he
        refine ⟨?_, ?_, ?_, ?_, ?_, ?_⟩ <;>
          simp [get_db_conn, hh, Conn.rollbackTx, Conn.closeConn,
                List.count_append, List.append_assoc]
      · simp [get_db_conn, hh, Conn.rollbackTx, Conn.closeConn]
      · simp [get_db_conn, hh, Conn.rollbackTx, Conn.closeConn, List.append_assoc]

/-- Witness for C1: concrete success and failure runs through get_db_conn. -/
theorem get_db_conn_txn_discipline_witness :
    (hOkEx (connOpen dbEx)).2 = Except.ok 0 ∧
    (get_db_conn hOkEx dbEx).2 = Except.ok 0 ∧
    (get_db_conn hOkEx dbEx).1.events.count Ev.commit =
      (hOkEx (connOpen dbEx)).1.events.count Ev.commit + 1 ∧
    (hErrEx (connOpen dbEx)).2 = Except.error (AppErr.valueErr "boom") ∧
    (get_db_conn hErrEx dbEx).2 = Except.error (AppErr.valueErr "boom") ∧
    (get_db_conn hErrEx dbEx).1.events =
      (hErrEx (connOpen dbEx)).1.events ++ [Ev.rollback, Ev.close] := by
  refine ⟨rfl, ?_, ?_, rfl, ?_, ?_⟩
  · exact ((get_db_conn_txn_discipline hOkEx dbEx).1 0 rfl).1
  · exact ((get_db_conn_txn_discipline hOkEx dbEx).1 0 rfl).2.2.2.1
  · exact ((get_db_conn_txn_discipline hErrEx dbEx).2.1 (AppErr.valueErr "boom") rfl).1
  · exact ((get_db_conn_txn_discipline hErrEx dbEx).2.1 (AppErr.valueErr "boom") rfl).2.2.2.1

/-- C2: contrary to the claim, the repository function users_create commits
its own transaction (connection.commit() directly after the INSERT), before
the request-scoped wrapper decides commit versus rollback: on a fresh
connection a successful insert leaves one commit event already on the
connection and the inserted row already durable in the committed state. -/
theorem users_create_commits_inside_repository :
    ((users_create (connOpen dbEx) "ada" "ada@x.com" "h" "en").1.events.count
        Ev.commit = 1) ∧
    (users_create (connOpen dbEx) "ada" "ada@x.com" "h" "en").1.committed.users =
      [{ user_id := 1, username := "ada", email := "ada@x.com",
         password_hash := "h", language := "en", is_verified := false,
         is_active := true, created_at := 100,
         current_subscription_id := none }] := by
  constructor <;> rfl

/-- C3: a POST /users/ whose username duplicates an existing user does not
produce the 400 bad-request outcome: users_create raises the storage
driver's uniqueness error, which propagates through create_user to the
wrapper (rollback and re-raise) as a non-HTTP internal failure; the 400
branch of create_user is never reached. -/
theorem duplicate_create_user_propagates_storage_error :
    (get_db_conn
        (create_user
          { username := "ada", email := "other@x.com",
            password_hash := "h2", language := "sv" }) dbDup).2 =
      Except.error AppErr.unique ∧
    isHttpErr
      (get_db_conn
        (create_user
          { username := "ada", email := "other@x.com",
            password_hash := "h2", language := "sv" }) dbDup).2 = false ∧
    (get_db_conn
        (create_user
          { username := "ada", email := "other@x.com",
            password_hash := "h2", language := "sv" }) dbDup).1.committed =
      dbDup := by
  refine ⟨rfl, rfl, rfl⟩

/-- C4: calling users_patch with all three optional fields absent raises
ValueError("No fields provided") and returns the connection exactly as it
was: no statement event is recorded and neither the working nor the
committed database state changes. -/
theorem users_patch_no_fields_rejects_before_storage (c : Conn) (user_id : Nat) :
    users_patch c user_id none none none =
      (c, Except.error (AppErr.valueErr "No fields provided")) ∧
    (users_patch c user_id none none none).1.events = c.events ∧
    (users_patch c user_id none none none).1.working = c.working := by
  exact ⟨rfl, rfl, rfl⟩

/-- Folding the dynamic assignment list over a row updates exactly the
supplied user fields. -/
theorem patchAssignments_apply (is_active is_verified : Option Bool)
    (language : Option String) (r : UserRow) :
    (patchAssignments is_active is_verified language).foldl (fun s f => f s) r =
      { r with is_active := is_active.getD r.is_active,
               is_verified := is_verified.getD r.is_verified,
               language := language.getD r.language } := by
  cases is_active <;> cases is_verified <;> cases language <;> rfl

/-- The assignment list is nonempty exactly when some field is supplied. -/
theorem patchAssignments_isEmpty_false (is_active is_verified : Option Bool)
    (language : Option String)
    (h : is_active.isSome ∨ is_verified.isSome ∨ language.isSome) :
    (patchAssignments is_active is_verified language).isEmpty = false := by
  cases is_active <;> cases is_verified <;> cases language <;>
    simp_all [patchAssignments]

/-- C5: a users_patch call supplying a non-empty subset of {is_active,
is_verified, language} for an existing user returns the full eight-column
projection of an updated row that takes exactly the supplied values and
keeps every other field (username, email, password_hash, created_at,
current_subscription_id, and any unsupplied patchable field) unchanged;
rows with a different user_id are untouched, no commit happens inside the
repository, and exactly one UPDATE statement is executed. -/
theorem users_patch_assigns_exactly_supplied_fields
    (c : Conn) (uid : Nat) (oa ov : Option Bool) (ol : Option String)
    (r : UserRow)
    (hfind : c.working.users.find? (fun x => x.user_id == uid) = some r)
    (hsome : oa.isSome ∨ ov.isSome ∨ ol.isSome) :
    ∃ r' : UserRow,
      (users_patch c uid oa ov ol).2 = Except.ok (some (userProj r')) ∧
      r'.is_active = oa.getD r.is_active ∧
      r'.is_verified = ov.getD r.is_verified ∧
      r'.language = ol.getD r.language ∧
      r'.user_id = r.user_id ∧
      r'.username = r.username ∧
      r'.email = r.email ∧
      r'.password_hash = r.password_hash ∧
      r'.created_at = r.created_at ∧
      r'.current_subscription_id = r.current_subscription_id ∧
      (users_patch c uid oa ov ol).1.working.users =
        c.working.users.map (fun x => if x.user_id == uid then
          { x with is_active := oa.getD x.is_active,
                   is_verified := ov.getD x.is_verified,
                   language := ol.getD x.language } else x) ∧
      (users_patch c uid oa ov ol).1.committed = c.committed ∧
      (users_patch c uid oa ov ol).1.events = c.events ++ [Ev.exec] := by
  have hne := patchAssignments_isEmpty_false oa ov ol hsome
  refine ⟨{ r with is_active := oa.getD r.is_active,
                   is_verified := ov.getD r.is_verified,
                   language := ol.getD r.language },
          ?_, rfl, rfl, rfl, rfl, rfl, rfl, rfl, rfl, rfl, ?_, ?_, ?_⟩
  · simp [users_patch, hne, hfind, Conn.execTo, patchAssignments_apply]
  · simp [users_patch, hne, Conn.execTo, patchAssignments_apply]
  · simp [users_patch, hne, Conn.execTo]
  · simp [users_patch, hne, Conn.execTo]

/-- A user row used for the C5 witness. -/
def rowC5 : UserRow :=
  { user_id := 7, username := "eva", email := "e@x.com",
    password_hash := "ph", language := "sv", is_verified := false,
    is_active := false, created_at := 10, current_subscription_id := some 3 }

/-- A connection whose database holds exactly rowC5. -/
def connC5 : Conn := connOpen { dbEx with users := [rowC5], nextUserId := 8 }

/-- Witness for C5: patching only is_active on the stored user eva. -/
theorem users_patch_assigns_witness :
    connC5.working.users.find? (fun x => x.user_id == 7) = some rowC5 ∧
    ((some true : Option Bool).isSome ∨ (none : Option Bool).isSome ∨
      (none : Option String).isSome) ∧
    (∃ r' : UserRow,
      (users_patch connC5 7 (some true) none none).2 =
        Except.ok (some (userProj r')) ∧
      r'.is_active = (some true : Option Bool).getD rowC5.is_active ∧
      r'.is_verified = (none : Option Bool).getD rowC5.is_verified ∧
      r'.language = (none : Option String).getD rowC5.language ∧
      r'.user_id = rowC5.user_id ∧
      r'.username = rowC5.username ∧
      r'.email = rowC5.email ∧
      r'.password_hash = rowC5.password_hash ∧
      r'.created_at = rowC5.created_at ∧
      r'.current_subscription_id = rowC5.current_subscription_id ∧
      (users_patch connC5 7 (some true) none none).1.working.users =
        connC5.working.users.map (fun x => if x.user_id == 7 then
          { x with is_active := (some true : Option Bool).getD x.is_active,
                   is_verified := (none : Option Bool).getD x.is_verified,
                   language := (none : Option String).getD x.language } else x) ∧
      (users_patch connC5 7 (some true) none none).1.committed =
        connC5.committed ∧
      (users_patch connC5 7 (some true) none none).1.events =
        connC5.events ++ [Ev.exec]) := by
  refine ⟨rfl, Or.inl rfl, ?_⟩
  exact users_patch_assigns_exactly_supplied_fields connC5 7 (some true) none
    none rowC5 rfl (Or.inl rfl)

/-- C6: sessions_next_question on an existing session executes a single
UPDATE statement whose effect sets current_question_index to the previous
index (null treated as 0) plus 1, leaves every other column of the session
row unchanged and every other row untouched, and returns the updated row in
full; on a nonexistent session id it returns none and changes no session
row. -/
theorem sessions_next_question_spec (c : Conn) (sid : Nat) (r : SessionRow) :
    (c.working.sessions.find? (fun x => x.session_id == sid) = none →
      (sessions_next_question c sid).2 = none ∧
      (sessions_next_question c sid).1.working.sessions = c.working.sessions) ∧
    (c.working.sessions.find? (fun x => x.session_id == sid) = some r →
      ∃ r' : SessionRow,
        (sessions_next_question c sid).2 = some r' ∧
        r'.current_question_index =
          some (r.current_question_index.getD 0 + 1) ∧
        r'.session_id = r.session_id ∧
        r'.quiz_id = r.quiz_id ∧
        r'.host_id = r.host_id ∧
        r'.access_code = r.access_code ∧
        r'.started_at = r.started_at ∧
        r'.ended_at = r.ended_at ∧
        (sessions_next_question c sid).1.working.sessions =
          c.working.sessions.map
            (fun x => if x.session_id == sid then bumpIndex x else x) ∧
        (sessions_next_question c sid).1.committed = c.committed ∧
        (sessions_next_question c sid).1.events = c.events ++ [Ev.exec]) := by
  constructor
  · intro hnone
    have hid : ∀ x ∈ c.working.sessions, (x.session_id == sid) = false := by
      intro x hx
      have := List.find?_eq_none.mp hnone x hx
      simpa using this
    constructor
    · simp [sessions_next_question, hnone]
    · have hcong : ∀ x ∈ c.working.sessions,
          (if x.session_id == sid then bumpIndex x else x) = x := by
        intro x hx
        simp [hid x hx]
      simp only [sessions_next_question, Conn.execTo]
      exact (List.map_congr_left hcong).trans (List.map_id' _)
  · intro hfind
    refine ⟨bumpIndex r, ?_, rfl, rfl, rfl, rfl, rfl, rfl, rfl, ?_, ?_, ?_⟩
    · simp [sessions_next_question, hfind]
    · simp [sessions_next_question, Conn.execTo]
    · simp [sessions_next_question, Conn.execTo]
    · simp [sessions_next_question, Conn.execTo]

/-- A game session with a null question index. -/
def sessC6 : SessionRow :=
  { session_id := 4, quiz_id := some 2, host_id := none,
    access_code := "AB12", started_at := 30, ended_at := none,
    current_question_index := none }

/-- A connection whose database holds exactly sessC6. -/
def connC6 : Conn := connOpen { dbEx with sessions := [sessC6] }

/-- Witness for C6: advancing sessC6 (null index becomes 1) and advancing a
nonexistent session id on the same database. -/
theorem sessions_next_question_witness :
    connC6.working.sessions.find? (fun x => x.session_id == 4) = some sessC6 ∧
    (∃ r' : SessionRow,
      (sessions_next_question connC6 4).2 = some r' ∧
      r'.current_question_index =
        some (sessC6.current_question_index.getD 0 + 1) ∧
      r'.session_id = sessC6.session_id ∧
      r'.quiz_id = sessC6.quiz_id ∧
      r'.host_id = sessC6.host_id ∧
      r'.access_code = sessC6.access_code ∧
      r'.started_at = sessC6.started_at ∧
      r'.ended_at = sessC6.ended_at ∧
      (sessions_next_question connC6 4).1.working.sessions =
        connC6.working.sessions.map
          (fun x => if x.session_id == 4 then bumpIndex x else x) ∧
      (sessions_next_question connC6 4).1.committed = connC6.committed ∧
      (sessions_next_question connC6 4).1.events =
        connC6.events ++ [Ev.exec]) ∧
    connC6.working.sessions.find? (fun x => x.session_id == 9) = none ∧
    (sessions_next_question connC6 9).2 = none ∧
    (sessions_next_question connC6 9).1.working.sessions =
      connC6.working.sessions := by
  refine ⟨rfl, ?_, rfl, ?_, ?_⟩
  · exact (sessions_next_question_spec connC6 4 sessC6).2 rfl
  · exact ((sessions_next_question_spec connC6 9 sessC6).1 rfl).1
  · exact ((sessions_next_question_spec connC6 9 sessC6).1 rfl).2

/-- Comparison on a (sort_order, id) key realising ORDER BY sort_order
NULLS LAST, id. -/
def keyLE (a b : Option Int × Nat) : Bool :=
  nullsLastLT a.1 b.1 || (a.1 == b.1 && a.2 ≤ b.2)

/-- keyLE is transitive. -/
theorem keyLE_trans (a b c : Option Int × Nat)
    (h1 : keyLE a b = true) (h2 : keyLE b c = true) : keyLE a c = true := by
  rcases a with ⟨ao, an⟩
  rcases b with ⟨bo, bn⟩
  rcases c with ⟨co, cn⟩
  cases ao <;> cases bo <;> cases co <;>
    simp_all [keyLE, nullsLastLT] <;> omega

/-- keyLE is total. -/
theorem keyLE_total (a b : Option Int × Nat) :
    (keyLE a b || keyLE b a) = true := by
  rcases a with ⟨ao, an⟩
  rcases b with ⟨bo, bn⟩
  cases ao <;> cases bo <;> simp_all [keyLE, nullsLastLT] <;> omega

/-- The question comparison is keyLE on the (sort_order, question_id) key. -/
theorem qLE_eq_keyLE (r s : QuestionRow) :
    qLE r s = keyLE (r.sort_order, r.question_id) (s.sort_order, s.question_id) :=
  rfl

/-- The answer comparison is keyLE on the (sort_order, answer_id) key. -/
theorem aLE_eq_keyLE (r s : AnswerRow) :
    aLE r s = keyLE (r.sort_order, r.answer_id) (s.sort_order, s.answer_id) :=
  rfl

/-- The ordering the spec states for listed questions: sort_order ascending
with nulls last, ties broken by question_id ascending. -/
def qOrd (r s : QuestionRow) : Prop :=
  match r.sort_order, s.sort_order with
  | some x, some y => x < y ∨ (x = y ∧ r.question_id ≤ s.question_id)
  | some _, none => True
  | none, some _ => False
  | none, none => r.question_id ≤ s.question_id

/-- The ordering the spec states for listed answers: sort_order ascending
with nulls last, ties broken by answer_id ascending. -/
def aOrd (r s : AnswerRow) : Prop :=
  match r.sort_order, s.sort_order with
  | some x, some y => x < y ∨ (x = y ∧ r.answer_id ≤ s.answer_id)
  | some _, none => True
  | none, some _ => False
  | none, none => r.answer_id ≤ s.answer_id

/-- The executable question comparison implies the specified ordering. -/
theorem qLE_imp_qOrd {r s : QuestionRow} (h : qLE r s = true) : qOrd r s := by
  unfold qLE nullsLastLT at h
  unfold qOrd
  rcases hr : r.sort_order with _ | x <;> rcases hs : s.sort_order with _ | y <;>
    simp_all

/-- The executable answer comparison implies the specified ordering. -/
theorem aLE_imp_aOrd {r s : AnswerRow} (h : aLE r s = true) : aOrd r s := by
  unfold aLE nullsLastLT at h
  unfold aOrd
  rcases hr : r.sort_order with _ | x <;> rcases hs : s.sort_order with _ | y <;>
    simp_all

/-- C7: listing a quiz's questions returns exactly the rows of that quiz,
ordered by sort_order ascending with nulls last and ties broken by
question_id ascending; listing a question's answers returns exactly the
rows of that question, ordered by sort_order ascending with nulls last and
ties broken by answer_id ascending. -/
theorem lists_ordered_nulls_last (c : Conn) (quiz_id question_id : Nat) :
    ((questions_list_for_quiz c quiz_id).2).Perm
      (c.working.questions.filter (fun r => r.quiz_id == quiz_id)) ∧
    ((questions_list_for_quiz c quiz_id).2).Pairwise qOrd ∧
    ((answers_list_for_question c question_id).2).Perm
      (c.working.answers.filter (fun r => r.question_id == question_id)) ∧
    ((answers_list_for_question c question_id).2).Pairwise aOrd := by
  refine ⟨List.mergeSort_perm _ _, ?_, List.mergeSort_perm _ _, ?_⟩
  · have hs := @List.sorted_mergeSort QuestionRow qLE
      (fun a b c h1 h2 => by
        rw [qLE_eq_keyLE] at h1 h2 ⊢
        exact keyLE_trans _ _ _ h1 h2)
      (fun a b => by
        rw [qLE_eq_keyLE, qLE_eq_keyLE]
        exact keyLE_total _ _)
      (c.working.questions.filter (fun r => r.quiz_id == quiz_id))
    exact hs.imp (fun h => qLE_imp_qOrd h)
  · have hs := @List.sorted_mergeSort AnswerRow aLE
      (fun a b c h1 h2 => by
        rw [aLE_eq_keyLE] at h1 h2 ⊢
        exact keyLE_trans _ _ _ h1 h2)
      (fun a b => by
        rw [aLE_eq_keyLE, aLE_eq_keyLE]
        exact keyLE_total _ _)
      (c.working.answers.filter (fun r => r.question_id == question_id))
    exact hs.imp (fun h => aLE_imp_aOrd h)

/-- C8: deleting a nonexistent user id removes nothing: users_delete
reports an affected-row count of zero with every stored row still present,
and the delete_user handler maps that zero count to HTTPException 404. -/
theorem users_delete_nonexistent_is_not_found (c : Conn) (uid : Nat)
    (h : ∀ x ∈ c.working.users, (x.user_id == uid) = false) :
    (users_delete c uid).2 = 0 ∧
    (users_delete c uid).1.working.users = c.working.users ∧
    (users_delete c uid).1.committed = c.committed ∧
    (delete_user uid c).2 = Except.error (AppErr.http 404 "User not found") ∧
    (delete_user uid c).1.working.users = c.working.users := by
  have hfil : c.working.users.filter (fun r => r.user_id == uid) = [] :=
    List.filter_eq_nil_iff.mpr (by intro a ha; simp [h a ha])
  have hkeep : c.working.users.filter (fun r => !(r.user_id == uid)) =
      c.working.users :=
    List.filter_eq_self.mpr (by intro a ha; simp [h a ha])
  refine ⟨?_, ?_, ?_, ?_, ?_⟩
  · simp [users_delete, hfil]
  · simp [users_delete, Conn.execTo, hkeep]
  · simp [users_delete, Conn.execTo]
  · simp [delete_user, users_delete, hfil]
  · simp [delete_user, users_delete, Conn.execTo, hfil, hkeep]

/-- Witness for C8: deleting user id 9 from the database that holds only
the user ada (id 1). -/
theorem users_delete_nonexistent_witness :
    (∀ x ∈ (connOpen dbDup).working.users, (x.user_id == 9) = false) ∧
    (users_delete (connOpen dbDup) 9).2 = 0 ∧
    (users_delete (connOpen dbDup) 9).1.working.users =
      (connOpen dbDup).working.users ∧
    (users_delete (connOpen dbDup) 9).1.committed =
      (connOpen dbDup).committed ∧
    (delete_user 9 (connOpen dbDup)).2 =
      Except.error (AppErr.http 404 "User not found") ∧
    (delete_user 9 (connOpen dbDup)).1.working.users =
      (connOpen dbDup).working.users := by
  have h : ∀ x ∈ (connOpen dbDup).working.users, (x.user_id == 9) = false := by
    decide
  have H := users_delete_nonexistent_is_not_found (connOpen dbDup) 9 h
  exact ⟨h, H.1, H.2.1, H.2.2.1, H.2.2.2.1, H.2.2.2.2⟩

/-- The submit-answer payload in which no answer was given: the three
answer fields are null. -/
def rawNullAnswer : RawParticipantAnswer :=
  { participant_id := some 1, question_id := some 2,
    chosen_answer_id := none, is_correct := none, points_awarded := none }

/-- C9: contrary to the claim, the "no answer given" case is rejected at
request validation: schemas.ParticipantAnswer declares chosen_answer_id,
is_correct and points_awarded as required non-optional fields, so a payload
with all three null fails validation before any handler or repository code
runs, even though participant_answers_create itself accepts None for all
three and would record a row with those fields null and a server-assigned
answered_at. -/
theorem null_answer_rejected_by_schema :
    validateParticipantAnswer rawNullAnswer =
      Except.error (AppErr.http 422 "validation error") ∧
    (participant_answers_create (connOpen dbEx) 1 2 none none none).2 =
      some { id := 1, participant_id := 1, question_id := 2,
             chosen_answer_id := none, is_correct := none,
             points_awarded := none, answered_at := 100 } ∧
    (participant_answers_create (connOpen dbEx) 1 2 none none none).1.working.pa =
      [{ id := 1, participant_id := 1, question_id := 2,
         chosen_answer_id := none, is_correct := none,
         points_awarded := none, answered_at := 100 }] := by
  exact ⟨rfl, rfl, rfl⟩

/-- Folding the session assignment list over a row updates exactly the
supplied session fields. -/
theorem sessionAssignments_apply (ci : Option Int) (ea : Option Nat)
    (r : SessionRow) :
    (sessionAssignments ci ea).foldl (fun s f => f s) r =
      { r with current_question_index := ci.elim r.current_question_index some,
               ended_at := ea.elim r.ended_at some } := by
  cases ci <;> cases ea <;> rfl

/-- The session assignment list is nonempty exactly when a field is
supplied. -/
theorem sessionAssignments_isEmpty_false (ci : Option Int) (ea : Option Nat)
    (h : ci.isSome ∨ ea.isSome) :
    (sessionAssignments ci ea).isEmpty = false := by
  cases ci <;> cases ea <;> simp_all [sessionAssignments]

/-- C10: sessions_patch obeys the same builder invariant as users_patch:
with both optional fields absent it raises ValueError before any statement,
leaving the connection untouched; with a non-empty subset supplied it
executes one UPDATE that assigns exactly the supplied fields (allowing
current_question_index to be overwritten directly), leaves every other
session column and every other row unchanged, returns the updated row in
full, and returns none for a nonexistent session id. -/
theorem sessions_patch_builder_invariant (c : Conn) (sid : Nat)
    (ci : Option Int) (ea : Option Nat) (r : SessionRow) :
    (sessions_patch c sid none none =
      (c, Except.error (AppErr.valueErr "No fields provided"))) ∧
    (ci.isSome ∨ ea.isSome →
      (c.working.sessions.find? (fun x => x.session_id == sid) = none →
        (sessions_patch c sid ci ea).2 = Except.ok none) ∧
      (c.working.sessions.find? (fun x => x.session_id == sid) = some r →
        ∃ r' : SessionRow,
          (sessions_patch c sid ci ea).2 = Except.ok (some r') ∧
          (∀ i : Int, ci = some i → r'.current_question_index = some i) ∧
          (ci = none → r'.current_question_index = r.current_question_index) ∧
          (∀ t : Nat, ea = some t → r'.ended_at = some t) ∧
          (ea = none → r'.ended_at = r.ended_at) ∧
          r'.session_id = r.session_id ∧
          r'.quiz_id = r.quiz_id ∧
          r'.host_id = r.host_id ∧
          r'.access_code = r.access_code ∧
          r'.started_at = r.started_at ∧
          (sessions_patch c sid ci ea).1.working.sessions =
            c.working.sessions.map (fun x => if x.session_id == sid then
              { x with
                current_question_index := ci.elim x.current_question_index some,
                ended_at := ea.elim x.ended_at some } else x) ∧
          (sessions_patch c sid ci ea).1.committed = c.committed ∧
          (sessions_patch c sid ci ea).1.events = c.events ++ [Ev.exec])) := by
  constructor
  · rfl
  · intro hsome
    have hne := sessionAssignments_isEmpty_false ci ea hsome
    constructor
    · intro hnone
      simp [sessions_patch, hne, hnone]
    · intro hfind
      refine ⟨{ r with
                current_question_index := ci.elim r.current_question_index some,
                ended_at := ea.elim r.ended_at some },
              ?_, ?_, ?_, ?_, ?_, rfl, rfl, rfl, rfl, rfl, ?_, ?_, ?_⟩
      · simp [sessions_patch, hne, hfind, sessionAssignments_apply]
      · intro i hi
        subst hi
        rfl
      · intro hci
        subst hci
        rfl
      · intro t ht
        subst ht
        rfl
      · intro hea
        subst hea
        rfl
      · simp [sessions_patch, hne, Conn.execTo, sessionAssignments_apply]
      · simp [sessions_patch, hne, Conn.execTo]
      · simp [sessions_patch, hne, Conn.execTo]

/-- Witness for C10: patching only current_question_index of sessC6 to 9,
and patching a nonexistent session id on the same database. -/
theorem sessions_patch_builder_witness :
    ((some (9 : Int)).isSome ∨ (none : Option Nat).isSome) ∧
    connC6.working.sessions.find? (fun x => x.session_id == 4) = some sessC6 ∧
    connC6.working.sessions.find? (fun x => x.session_id == 11) = none ∧
    (sessions_patch connC6 11 (some 9) none).2 = Except.ok none ∧
    (∃ r' : SessionRow,
      (sessions_patch connC6 4 (some 9) none).2 = Except.ok (some r') ∧
      (∀ i : Int, (some (9 : Int)) = some i →
        r'.current_question_index = some i) ∧
      ((some (9 : Int)) = none →
        r'.current_question_index = sessC6.current_question_index) ∧
      (∀ t : Nat, (none : Option Nat) = some t → r'.ended_at = some t) ∧
      ((none : Option Nat) = none → r'.ended_at = sessC6.ended_at) ∧
      r'.session_id = sessC6.session_id ∧
      r'.quiz_id = sessC6.quiz_id ∧
      r'.host_id = sessC6.host_id ∧
      r'.access_code = sessC6.access_code ∧
      r'.started_at = sessC6.started_at ∧
      (sessions_patch connC6 4 (some 9) none).1.working.sessions =
        connC6.working.sessions.map (fun x => if x.session_id == 4 then
          { x with
            current_question_index :=
              (some (9 : Int)).elim x.current_question_index some,
            ended_at := (none : Option Nat).elim x.ended_at some } else x) ∧
      (sessions_patch connC6 4 (some 9) none).1.committed =
        connC6.committed ∧
      (sessions_patch connC6 4 (some 9) none).1.events =
        connC6.events ++ [Ev.exec]) := by
  refine ⟨Or.inl rfl, rfl, rfl, ?_, ?_⟩
  · exact ((sessions_patch_builder_invariant connC6 11 (some 9) none
      sessC6).2 (Or.inl rfl)).1 rfl
  · exact ((sessions_patch_builder_invariant connC6 4 (some 9) none
      sessC6).2 (Or.inl rfl)).2 rfl
